import Mathlib

/-!
Shallow embedding of the Puerto Rico two-player move-advisor
(`src/unnamed/part_000`): catalog tables, scoring and explanation
functions, the recommendation aggregator, and the session state
transitions, together with theorems settling the specification claims.

JavaScript numbers are embedded as exact rationals (`ℚ`); the decimal
constants of the source (3.1, 0.4, …) are written as the corresponding
fractions.  Strings stay strings; JS truthiness of an optional string
argument is the test `≠ ""`.
-/

namespace PRHelper

/-- A player board as consumed by the scoring functions: starting crop,
extra plantations in acquisition order, quarry count, owned buildings
and money (`doubloons`). -/
structure PlayerBoard where
  startingPlantation : String
  extraPlantations : List String
  quarries : Nat
  buildings : List String
  doubloons : Int
deriving DecidableEq, Repr

/-- `PLANTATION_VALUES_BASE` lookup with the `|| 0` fallback for
untabulated types folded in. -/
def PLANTATION_VALUES_BASE (p : String) : ℚ :=
  if p = "Corn" then 31/10
  else if p = "Sugar" then 14/5
  else if p = "Indigo" then 9/5
  else if p = "Tobacco" then 12/5
  else if p = "Coffee" then 23/10
  else 0

/-- `plantationSynergyBonus`: a starting-crop match bonus (0.9 for Corn,
0.2 for Indigo, 0.6 otherwise) plus a flat 0.5 when the type is not yet
anywhere on the board (starting crop or extras). -/
def plantationSynergyBonus (plantation : String) (playerBoard : PlayerBoard) : ℚ :=
  let matchBonus : ℚ :=
    if plantation = playerBoard.startingPlantation then
      if plantation = "Corn" then 9/10
      else if plantation = "Indigo" then 1/5
      else 3/5
    else 0
  let all := playerBoard.startingPlantation :: playerBoard.extraPlantations
  let diversityBonus : ℚ := if plantation ∈ all then 0 else 1/2
  matchBonus + diversityBonus

/-- `plantationDenyBonus`: 0.4 when the tile matches the opponent's
starting plantation. -/
def plantationDenyBonus (plantation : String) (opponentBoard : PlayerBoard) : ℚ :=
  if plantation = opponentBoard.startingPlantation then 2/5 else 0

/-- `scoreQuarryChoice`: flat 2.7 base, +0.5 on turns ≤ 3, then +0.8 at
zero quarries owned, +0.3 at exactly one, and −0.3·(q−1) beyond. -/
def scoreQuarryChoice (you : PlayerBoard) (turnNumber : Int) : ℚ :=
  let afterTurn : ℚ := 27/10 + (if turnNumber ≤ 3 then 1/2 else 0)
  let q := you.quarries
  afterTurn +
    (if q = 0 then 4/5
     else if q = 1 then 3/10
     else -(3/10 * ((q : ℚ) - 1)))

/-- `scorePlantationChoice`: delegates "Quarry" to `scoreQuarryChoice`,
otherwise base + synergy + deny + early-turn bonus (0.4 when turn ≤ 2). -/
def scorePlantationChoice (plantation : String) (you opponent : PlayerBoard)
    (turnNumber : Int) : ℚ :=
  if plantation = "Quarry" then scoreQuarryChoice you turnNumber
  else
    PLANTATION_VALUES_BASE plantation
      + plantationSynergyBonus plantation you
      + plantationDenyBonus plantation opponent
      + (if turnNumber ≤ 2 then 2/5 else 0)

/-- The clause list (`parts`) assembled by `describePlantationReason`
before joining with spaces. -/
def describePlantationParts (plantation : String) (you opponent : PlayerBoard) :
    List String :=
  let lead : List String :=
    if plantation = "Quarry" then
      ["Quarries reduce building costs, which is extremely valuable in 2-player where building tempo is critical."]
        ++ (if you.quarries = 0 then
              ["This is your first quarry, giving you a big long-term discount on buildings."]
            else
              ["More quarries further reduce your effective building costs, though with diminishing returns."])
    else if plantation = "Corn" then
      ["Corn is extremely strong early because it produces without a building and gives fast shipping pressure in 2-player."]
    else if plantation = "Indigo" then
      ["Indigo is weaker economically than corn; it mainly shines once you have the matching indigo production building."]
    else if plantation = "Sugar" then
      ["Sugar is a higher-value good that scores well once the Sugar Mill is in place, making it an appealing early pick."]
    else
      [plantation ++ " is a high-value export that pays off once the right production building is online."]
  let tail : List String :=
    if plantation ≠ "Quarry" then
      (if plantation = you.startingPlantation then
         ["It matches your starting plantation, reinforcing that production line."]
       else
         ["It diversifies your plantations, giving you more flexibility later."])
        ++ (if plantation = opponent.startingPlantation then
              ["It also denies the opponent another copy of their main crop."]
            else [])
    else []
  lead ++ tail

/-- `describePlantationReason`: the clause list joined with spaces. -/
def describePlantationReason (plantation : String) (you opponent : PlayerBoard) :
    String :=
  String.intercalate " " (describePlantationParts plantation you opponent)

/-- An entry of the `BUILDINGS` scoring catalog. -/
structure Building where
  name : String
  type : String
  crop : Option String
  cost : Int
  baseValue : ℚ
deriving DecidableEq, Repr

/-- The early-game `BUILDINGS` subset used by the builder scoring. -/
def BUILDINGS : List Building :=
  [{ name := "Small Indigo Plant", type := "production", crop := some "Indigo",
     cost := 1, baseValue := 3 },
   { name := "Small Sugar Mill", type := "production", crop := some "Sugar",
     cost := 2, baseValue := 16/5 },
   { name := "Small Market", type := "violet", crop := none,
     cost := 1, baseValue := 5/2 },
   { name := "Hacienda", type := "violet", crop := none,
     cost := 2, baseValue := 14/5 }]

/-- `BUILDING_COSTS` lookup with the `|| 0` fallback for unknown names
folded in ("Other" is tabulated as 0). -/
def BUILDING_COSTS (b : String) : Int :=
  if b = "Small Indigo Plant" then 1
  else if b = "Small Sugar Mill" then 2
  else if b = "Indigo Plant" then 3
  else if b = "Sugar Mill" then 4
  else if b = "Tobacco Storage" then 5
  else if b = "Coffee Roaster" then 6
  else if b = "Small Market" then 1
  else if b = "Hacienda" then 2
  else if b = "Construction Hut" then 2
  else if b = "Small Warehouse" then 3
  else if b = "Hospice" then 4
  else if b = "Office" then 5
  else if b = "Large Market" then 5
  else if b = "Large Warehouse" then 6
  else if b = "University" then 8
  else if b = "Factory" then 7
  else if b = "Harbor" then 8
  else if b = "Wharf" then 9
  else if b = "Guild Hall" then 10
  else if b = "Residence" then 10
  else if b = "Fortress" then 10
  else if b = "Customs House" then 10
  else if b = "City Hall" then 10
  else 0

/-- `moveKey`: the `role|plantation|building` preference key (empty
string standing for a missing component, as `null` does in the source). -/
def moveKey (role plantation building : String) : String :=
  role ++ "|" ++ plantation ++ "|" ++ building

/-- `feedbackBonus` against an explicit feedback-count map: 0.3 per
recorded affirmation of the same key. -/
def feedbackBonus (fb : String → Nat) (role plantation building : String) : ℚ :=
  3/10 * (fb (moveKey role plantation building) : ℚ)

/-- `hasBuilding`: list membership test. -/
def hasBuilding (buildings : List String) (nm : String) : Bool :=
  buildings.contains nm

/-- `countPlantationType`: occurrences of a crop among starting crop and
extras. -/
def countPlantationType (playerBoard : PlayerBoard) (ty : String) : Nat :=
  ((playerBoard.startingPlantation :: playerBoard.extraPlantations).filter
    (fun p => p = ty)).length

/-- `scoreBuildingChoice`: −999 sentinel when already owned; otherwise
base value + production synergy + named-building bonuses + 0.3 per
quarry − 0.2 per cost unit. -/
def scoreBuildingChoice (building : Building) (you : PlayerBoard)
    (turnNumber : Int) : ℚ :=
  if hasBuilding you.buildings building.name then -999
  else
    let s0 := building.baseValue
    let s1 :=
      match building.crop with
      | some crop =>
          if building.type = "production" then
            let n := countPlantationType you crop
            if n > 0 then s0 + (3/2 + 3/10 * ((n : ℚ) - 1))
            else if crop = you.startingPlantation then s0 + 1
            else s0
          else s0
      | none => s0
    let s2 :=
      if building.name = "Small Market" then
        let uniquePlantTypes :=
          (you.startingPlantation :: you.extraPlantations).dedup
        if uniquePlantTypes.length ≥ 2 then s1 + 7/10 else s1
      else s1
    let s3 := if building.name = "Hacienda" then
        (if turnNumber ≤ 3 then s2 + 4/5 else s2)
      else s2
    let s4 := s3 + (you.quarries : ℚ) * (3/10)
    s4 - (building.cost : ℚ) * (1/5)

/-- Stable descending insertion by a rational key: a new element passes
every strictly smaller element and stops behind equal-or-larger ones,
matching a stable sort with comparator `b.score - a.score`. -/
def orderedInsertDesc {α : Type} (key : α → ℚ) (a : α) : List α → List α
  | [] => [a]
  | b :: l => if key b < key a then a :: b :: l else b :: orderedInsertDesc key a l

/-- Stable sort, descending by a rational key. -/
def sortByKeyDesc {α : Type} (key : α → ℚ) : List α → List α
  | [] => []
  | a :: l => orderedInsertDesc key a (sortByKeyDesc key l)

/-- `getBuilderOptions`: affordable catalog buildings scored, sentinel
scores filtered out, sorted by score descending. -/
def getBuilderOptions (you : PlayerBoard) (turnNumber : Int) :
    List (Building × ℚ) :=
  sortByKeyDesc (fun opt => opt.2)
    (((BUILDINGS.filter (fun b => b.cost ≤ you.doubloons)).map
        (fun b => (b, scoreBuildingChoice b you turnNumber))).filter
      (fun opt => opt.2 > -500))

/-- `scoreProspector`: 2.0 base, +0.7 when money ≤ 2, −0.2 on turns ≤ 2. -/
def scoreProspector (you : PlayerBoard) (turnNumber : Int) : ℚ :=
  2 + (if you.doubloons ≤ 2 then 7/10 else 0)
    + (if turnNumber ≤ 2 then -(1/5) else 0)

/-- The joined prose of `explainProspector`. -/
def explainProspector (you : PlayerBoard) (turnNumber : Int) : String :=
  String.intercalate " "
    (["Prospector gives you an extra doubloon, improving early buying power for key buildings."]
      ++ (if you.doubloons ≤ 2 then
            ["Because your money is low, the extra coin is especially attractive."]
          else [])
      ++ (if turnNumber ≥ 3 then
            ["Later in the round, some strong plantations may already be gone, making money comparatively better."]
          else []))

/-- `scoreOtherRole`: small fixed opening-priority scores for the
secondary roles, nudged by board development. -/
def scoreOtherRole (role : String) (you : PlayerBoard) : ℚ :=
  let plantCount := (you.startingPlantation :: you.extraPlantations).length
  let hasAnyBuilding := you.buildings.length > 0
  if role = "Mayor" then
    (if hasAnyBuilding ∨ plantCount > 1 then 6/5 else 3/5)
  else if role = "Craftsman" then
    (if hasAnyBuilding then 1 else 2/5)
  else if role = "Trader" then 7/10
  else if role = "Captain" then
    (if plantCount ≥ 2 then 3/5 else 1/5)
  else 3/10

/-- `explainOtherRole`: fixed prose per secondary role. -/
def explainOtherRole (role : String) (you : PlayerBoard) : String :=
  let plantCount := (you.startingPlantation :: you.extraPlantations).length
  let hasAnyBuilding := you.buildings.length > 0
  if role = "Mayor" then
    (if hasAnyBuilding ∨ plantCount > 1 then
       "Mayor can be reasonable now because you have enough plantations/buildings to justify extra colonists, but it\x27s still usually secondary to Settler/Builder openings."
     else
       "Mayor can help place colonists, but very early you usually have few buildings or plantations to staff, so it’s rarely the best opening pick.")
  else if role = "Craftsman" then
    (if hasAnyBuilding then
       "Craftsman becomes more attractive once you have production buildings, but in very early turns it often lags behind strong Settler or Builder plays."
     else
       "Craftsman is rarely strong in the very first round before a larger production engine is online.")
  else if role = "Trader" then
    "Trader tends to be low-impact in the opening when there are few goods to sell, but can set up a small cash injection when production ramps up."
  else if role = "Captain" then
    (if plantCount ≥ 2 then
       "Captain can sometimes be used tactically to ship and deny your opponent, but it’s usually not a top priority in the early game."
     else
       "Captain is almost never ideal this early; shipments are limited and you usually don’t want to prematurely clear goods.")
  else
    "This role is usually lower priority in the opening compared to Settler, Builder, and sometimes Prospector."

/-- The round state consumed by `recommendMoves`. -/
structure RoundState where
  availableRoles : List String
  faceUpPlantations : List String
  quarriesRemaining : Int
deriving DecidableEq, Repr

/-- One entry of the ranked output of `recommendMoves`; `plantation` and
`building` are absent (`none`) on candidates that do not carry them. -/
structure Recommendation where
  score : ℚ
  title : String
  explanation : String
  role : String
  plantation : Option String := none
  building : Option String := none
deriving DecidableEq, Repr

/-- The Settler block of `recommendMoves`: one candidate per non-"None"
face-up slot, plus a dedicated Quarry candidate when the shared pool is
non-empty — both only when the Settler role is available. -/
def settlerRecs (you opponent : PlayerBoard) (roundState : RoundState)
    (turnNumber : Int) (fb : String → Nat) : List Recommendation :=
  if "Settler" ∈ roundState.availableRoles then
    (roundState.faceUpPlantations.filterMap (fun plantation =>
      if plantation = "None" then none
      else some
        { score := scorePlantationChoice plantation you opponent turnNumber
            + feedbackBonus fb "Settler" plantation "",
          title := "Take Settler → choose " ++ plantation,
          explanation := describePlantationReason plantation you opponent,
          role := "Settler",
          plantation := some plantation }))
    ++ (if roundState.quarriesRemaining > 0 then
          [{ score := scorePlantationChoice "Quarry" you opponent turnNumber
               + feedbackBonus fb "Settler" "Quarry" "",
             title := "Take Settler → choose Quarry",
             explanation := describePlantationReason "Quarry" you opponent,
             role := "Settler",
             plantation := some "Quarry" }]
        else [])
  else []

/-- The Prospector block of `recommendMoves`. -/
def prospectorRecs (you : PlayerBoard) (roundState : RoundState)
    (turnNumber : Int) (fb : String → Nat) : List Recommendation :=
  if "Prospector" ∈ roundState.availableRoles then
    [{ score := scoreProspector you turnNumber
         + feedbackBonus fb "Prospector" "" "",
       title := "Take Prospector",
       explanation := explainProspector you turnNumber,
       role := "Prospector" }]
  else []

/-- The Builder block of `recommendMoves`: one candidate per builder
option, or a single low-score fallback when none exists. -/
def builderRecs (you : PlayerBoard) (roundState : RoundState)
    (turnNumber : Int) (fb : String → Nat) : List Recommendation :=
  if "Builder" ∈ roundState.availableRoles then
    let builderOptions := getBuilderOptions you turnNumber
    if builderOptions.isEmpty then
      [{ score := 2/5 + feedbackBonus fb "Builder" "" "",
         title := "Take Builder (limited options)",
         explanation := "You don\x27t currently have strong building options you can afford, so Builder is relatively weak compared to other roles.",
         role := "Builder" }]
    else
      builderOptions.map (fun opt =>
        { score := opt.2 + feedbackBonus fb "Builder" "" opt.1.name,
          title := "Take Builder → buy " ++ opt.1.name,
          explanation := "Builder lets you convert your doubloons into long-term engine pieces, especially strong early when paired with core production or economy buildings.",
          role := "Builder",
          building := some opt.1.name })
  else []

/-- The remaining-roles block of `recommendMoves`: one candidate per
available role other than Settler/Prospector/Builder. -/
def otherRecs (you : PlayerBoard) (roundState : RoundState)
    (fb : String → Nat) : List Recommendation :=
  roundState.availableRoles.filterMap (fun role =>
    if role = "Settler" ∨ role = "Prospector" ∨ role = "Builder" then none
    else some
      { score := scoreOtherRole role you + feedbackBonus fb role "" "",
        title := "Take " ++ role,
        explanation := explainOtherRole role you,
        role := role })

/-- `recommendMoves`: enumerates Settler tile/quarry claims, Prospector,
Builder purchases (or a low-score fallback) and the remaining available
roles in the push order of the source, scores each with its feedback
bonus, and sorts descending by score.  The session feedback counts are
passed as the map `fb`. -/
def recommendMoves (you opponent : PlayerBoard) (roundState : RoundState)
    (turnNumber : Int) (fb : String → Nat) : List Recommendation :=
  sortByKeyDesc (fun rec => rec.score)
    (settlerRecs you opponent roundState turnNumber fb
      ++ prospectorRecs you roundState turnNumber fb
      ++ builderRecs you roundState turnNumber fb
      ++ otherRecs you roundState fb)

/-- The mutable session: both boards, the preference-memory counts, the
turn/round counters, and the shared UI-held values the transition
functions read and write (money inputs, face-up plantation selects, the
remaining-quarries input, and the role checkboxes). -/
structure SessionState where
  extraPlantations : List String
  quarries : Nat
  buildings : List String
  oppExtraPlantations : List String
  oppQuarries : Nat
  oppBuildings : List String
  feedbackCounts : String → Nat
  turnInRound : Nat
  roundNumber : Nat
  yourDoubloons : Int
  oppDoubloons : Int
  faceUpPlantations : List String
  quarriesRemaining : Int
  availableRoles : List String

/-- Replace the first slot holding the given plantation by "None". -/
def replaceFirstWithNone (plantation : String) : List String → List String
  | [] => []
  | x :: xs =>
      if x = plantation then "None" :: xs
      else x :: replaceFirstWithNone plantation xs

/-- `removePlantationFromRow`: no-op for a missing value or "Quarry",
otherwise blanks the first matching face-up slot. -/
def removePlantationFromRow (plantation : String) (row : List String) :
    List String :=
  if plantation = "" ∨ plantation = "Quarry" then row
  else replaceFirstWithNone plantation row

/-- `decrementQuarriesRemaining`: decrement the shared pool only when it
is positive. -/
def decrementQuarriesRemaining (q : Int) : Int :=
  if q > 0 then q - 1 else q

/-- `applyChosenMove`: applies the advised player's move (Settler gain,
Builder purchase, Prospector coin), unchecks the chosen role, and
advances the turn counter to `min (t+1) 7`.  A missing optional field is
the empty string, matching the `dataset`/`null` truthiness tests. -/
def applyChosenMove (role plantation buildingName : String)
    (s : SessionState) : SessionState :=
  let s1 :=
    if role = "Settler" ∧ plantation ≠ "" then
      if plantation = "Quarry" then
        { s with quarries := s.quarries + 1,
                 quarriesRemaining := decrementQuarriesRemaining s.quarriesRemaining }
      else
        { s with extraPlantations := s.extraPlantations ++ [plantation],
                 faceUpPlantations :=
                   removePlantationFromRow plantation s.faceUpPlantations }
    else s
  let s2 :=
    if role = "Builder" ∧ buildingName ≠ "" then
      let newBuildings :=
        if buildingName ∈ s1.buildings then s1.buildings
        else s1.buildings ++ [buildingName]
      let cost := BUILDING_COSTS buildingName
      let newMoney :=
        if cost > 0 then max 0 (s1.yourDoubloons - cost) else s1.yourDoubloons
      { s1 with buildings := newBuildings, yourDoubloons := newMoney }
    else s1
  let s3 :=
    if role = "Prospector" then
      { s2 with yourDoubloons := s2.yourDoubloons + 1 }
    else s2
  let s4 :=
    if role ≠ "" then
      { s3 with availableRoles := s3.availableRoles.erase role }
    else s3
  { s4 with turnInRound := min (s4.turnInRound + 1) 7 }

/-- `applyOpponentLastRole`: early return when no role is selected;
otherwise mirrors `applyChosenMove` on the opponent fields, unchecks the
role, and advances the turn counter to `min (t+1) 7`. -/
def applyOpponentLastRole (role gain buildingName : String)
    (s : SessionState) : SessionState :=
  if role = "" then s
  else
    let s1 :=
      if role = "Settler" then
        if gain = "Quarry" then
          { s with oppQuarries := s.oppQuarries + 1,
                   quarriesRemaining := decrementQuarriesRemaining s.quarriesRemaining }
        else if gain ≠ "" then
          { s with oppExtraPlantations := s.oppExtraPlantations ++ [gain],
                   faceUpPlantations :=
                     removePlantationFromRow gain s.faceUpPlantations }
        else s
      else s
    let s2 :=
      if role = "Builder" ∧ buildingName ≠ "" then
        let newBuildings :=
          if buildingName ∈ s1.oppBuildings then s1.oppBuildings
          else s1.oppBuildings ++ [buildingName]
        let cost := BUILDING_COSTS buildingName
        let newMoney :=
          if cost > 0 then max 0 (s1.oppDoubloons - cost) else s1.oppDoubloons
        { s1 with oppBuildings := newBuildings, oppDoubloons := newMoney }
      else s1
    let s3 :=
      if role = "Prospector" then
        { s2 with oppDoubloons := s2.oppDoubloons + 1 }
      else s2
    let s4 := { s3 with availableRoles := s3.availableRoles.erase role }
    { s4 with turnInRound := min (s4.turnInRound + 1) 7 }

/-- `syncDoubloonsToGovernor`: the session reset triggered by swapping
who holds the Governor (first-player) status — starting money 3/2 by
Governor side, cleared boards and preference memory, full quarry supply
of 5, and counters back to turn 1 of round 1. -/
def syncDoubloonsToGovernor (youAreGovernor : Bool) (s : SessionState) :
    SessionState :=
  { s with
    yourDoubloons := if youAreGovernor then 3 else 2,
    oppDoubloons := if youAreGovernor then 2 else 3,
    extraPlantations := [],
    quarries := 0,
    buildings := [],
    oppExtraPlantations := [],
    oppQuarries := 0,
    oppBuildings := [],
    feedbackCounts := fun _ => 0,
    turnInRound := 1,
    roundNumber := 1,
    quarriesRemaining := 5 }

/-- One externally triggered state transition: either the advised
player applies a chosen move or the opponent's last role is applied. -/
inductive Action where
  | chosen (role plantation buildingName : String)
  | opponent (role gain buildingName : String)

/-- Interpretation of one `Action` on the session state. -/
def applyAction (a : Action) (s : SessionState) : SessionState :=
  match a with
  | .chosen role plantation buildingName =>
      applyChosenMove role plantation buildingName s
  | .opponent role gain buildingName =>
      applyOpponentLastRole role gain buildingName s

/-- A sequence of applied actions, first action first. -/
def applyActions (acts : List Action) (s : SessionState) : SessionState :=
  acts.foldl (fun st a => applyAction a st) s

/-! Concrete boards and sessions used by witnesses and counterexamples. -/

/-- A fresh non-Governor advised player (starting crop Indigo). -/
def wYou : PlayerBoard :=
  { startingPlantation := "Indigo", extraPlantations := [], quarries := 0,
    buildings := [], doubloons := 3 }

/-- The matching opponent (starting crop Corn). -/
def wOpp : PlayerBoard :=
  { startingPlantation := "Corn", extraPlantations := [], quarries := 0,
    buildings := [], doubloons := 2 }

/-- A player already holding two quarries. -/
def wYouTwoQuarries : PlayerBoard :=
  { startingPlantation := "Indigo", extraPlantations := [], quarries := 2,
    buildings := [], doubloons := 3 }

/-- A player whose board already holds a Corn extra beside an Indigo
starting crop. -/
def cexYou : PlayerBoard :=
  { startingPlantation := "Indigo", extraPlantations := ["Corn"], quarries := 0,
    buildings := [], doubloons := 3 }

/-- A fresh session at turn 1 of round 1. -/
def baseSession : SessionState :=
  { extraPlantations := [], quarries := 0, buildings := [],
    oppExtraPlantations := [], oppQuarries := 0, oppBuildings := [],
    feedbackCounts := fun _ => 0, turnInRound := 1, roundNumber := 1,
    yourDoubloons := 3, oppDoubloons := 2,
    faceUpPlantations := ["Corn", "Indigo"], quarriesRemaining := 5,
    availableRoles := ["Settler", "Builder", "Prospector"] }

/-- A session where the advised player already owns the Small Market and
holds 5 doubloons. -/
def ownedMarketSession : SessionState :=
  { baseSession with buildings := ["Small Market"], yourDoubloons := 5 }

/-- A round state offering only the Trader role. -/
def wTraderRound : RoundState :=
  { availableRoles := ["Trader"], faceUpPlantations := [],
    quarriesRemaining := 0 }

/-- The single candidate produced for `wTraderRound`. -/
def wTraderRec : Recommendation :=
  { score := 7/10,
    title := "Take Trader",
    explanation := "Trader tends to be low-impact in the opening when there are few goods to sell, but can set up a small cash injection when production ramps up.",
    role := "Trader" }

/-- A round state with the Settler available, a face-up "Quarry" slot and
a non-empty quarry pool. -/
def wQuarryRound : RoundState :=
  { availableRoles := ["Settler"], faceUpPlantations := ["Quarry"],
    quarriesRemaining := 1 }

/-! Permutation facts about the stable descending sort. -/

/-- Inserting with `orderedInsertDesc` permutes to consing. -/
theorem orderedInsertDesc_perm {α : Type} (key : α → ℚ) (a : α) (l : List α) :
    List.Perm (orderedInsertDesc key a l) (a :: l) := by
  induction l with
  | nil => exact List.Perm.refl _
  | cons b t ih =>
      simp only [orderedInsertDesc]
      split
      · exact List.Perm.refl _
      · exact (List.Perm.cons b ih).trans (List.Perm.swap a b t)

/-- The stable descending sort permutes its input. -/
theorem sortByKeyDesc_perm {α : Type} (key : α → ℚ) (l : List α) :
    List.Perm (sortByKeyDesc key l) l := by
  induction l with
  | nil => exact List.Perm.refl _
  | cons a t ih =>
      exact (orderedInsertDesc_perm key a (sortByKeyDesc key t)).trans
        (List.Perm.cons a ih)

/-- Sorting preserves membership. -/
theorem mem_sortByKeyDesc {α : Type} {key : α → ℚ} {l : List α} {x : α} :
    x ∈ sortByKeyDesc key l ↔ x ∈ l :=
  (sortByKeyDesc_perm key l).mem_iff

/-- Sorting preserves `countP`. -/
theorem countP_sortByKeyDesc {α : Type} (key : α → ℚ) (p : α → Bool)
    (l : List α) : (sortByKeyDesc key l).countP p = l.countP p :=
  (sortByKeyDesc_perm key l).countP_eq p

/-- C1: for every plantation other than the Quarry pseudo-resource,
`scorePlantationChoice` is exactly catalog base (0 if untabulated) plus
the starting-crop synergy bonus (0.9 Corn / 0.2 Indigo / 0.6 otherwise)
plus the 0.5 diversification bonus when the type is absent from the
board, plus the 0.4 denial bonus when it matches the opponent's starting
crop, plus the 0.4 early bonus on turns ≤ 2; consequently the score is
never below the base value. -/
theorem plantation_score_formula (p : String) (you opponent : PlayerBoard)
    (t : Int) (hp : p ≠ "Quarry") :
    scorePlantationChoice p you opponent t =
      PLANTATION_VALUES_BASE p
        + ((if p = you.startingPlantation then
              (if p = "Corn" then 9/10 else if p = "Indigo" then 1/5 else 3/5)
            else 0)
           + (if p ∈ you.startingPlantation :: you.extraPlantations then 0
              else 1/2))
        + (if p = opponent.startingPlantation then 2/5 else 0)
        + (if t ≤ 2 then 2/5 else 0)
    ∧ PLANTATION_VALUES_BASE p ≤ scorePlantationChoice p you opponent t := by
  have hSyn : (0 : ℚ) ≤ plantationSynergyBonus p you := by
    unfold plantationSynergyBonus
    dsimp only
    split_ifs <;> norm_num
  have hDeny : (0 : ℚ) ≤ plantationDenyBonus p opponent := by
    unfold plantationDenyBonus
    split_ifs <;> norm_num
  have hEarly : (0 : ℚ) ≤ (if t ≤ 2 then (2 : ℚ)/5 else 0) := by
    split_ifs <;> norm_num
  constructor
  · unfold scorePlantationChoice plantationSynergyBonus plantationDenyBonus
    rw [if_neg hp]
  · unfold scorePlantationChoice
    rw [if_neg hp]
    linarith

/-- Witness for C1 at the concrete input "Corn" against fresh boards. -/
theorem plantation_score_formula_witness :
    PLANTATION_VALUES_BASE "Corn" ≤ scorePlantationChoice "Corn" wYou wOpp 1 :=
  (plantation_score_formula "Corn" wYou wOpp 1 (by decide)).2

/-- C8: the quarry-claim score at 0 owned tokens on turn 2 strictly
exceeds the score at 2 owned tokens on turn 5; at 2 or more owned tokens
the score is the base-plus-early amount minus the growing penalty
0.3·(q−1); and the score strictly decreases with each further owned
token at any fixed turn. -/
theorem quarry_score_diminishing :
    (∀ (you0 you2 : PlayerBoard), you0.quarries = 0 → you2.quarries = 2 →
      scoreQuarryChoice you2 5 < scoreQuarryChoice you0 2)
    ∧ (∀ (you : PlayerBoard) (t : Int), 2 ≤ you.quarries →
        scoreQuarryChoice you t =
          (27/10 + (if t ≤ 3 then 1/2 else 0))
            - 3/10 * ((you.quarries : ℚ) - 1))
    ∧ (∀ (you you' : PlayerBoard) (t : Int),
        you'.quarries = you.quarries + 1 →
        scoreQuarryChoice you' t < scoreQuarryChoice you t) := by
  refine ⟨?_, ?_, ?_⟩
  · intro you0 you2 h0 h2
    unfold scoreQuarryChoice
    rw [h0, h2]
    norm_num
  · intro you t hq
    have h0 : you.quarries ≠ 0 := by omega
    have h1 : you.quarries ≠ 1 := by omega
    unfold scoreQuarryChoice
    dsimp only
    rw [if_neg h0, if_neg h1]
    ring
  · intro you you' t hq
    unfold scoreQuarryChoice
    dsimp only
    rw [hq]
    obtain h | h | ⟨n, h⟩ :
        you.quarries = 0 ∨ you.quarries = 1 ∨ ∃ n, you.quarries = n + 2 := by
      rcases you.quarries with _ | _ | n
      · exact Or.inl rfl
      · exact Or.inr (Or.inl rfl)
      · exact Or.inr (Or.inr ⟨n, rfl⟩)
    · rw [h]; norm_num
    · rw [h]; norm_num
    · rw [h]
      have hn : (0 : ℚ) ≤ (n : ℚ) := Nat.cast_nonneg n
      have hc2 : ((n + 2 + 1 : ℕ) : ℚ) = (n : ℚ) + 3 := by push_cast; ring
      have hc1 : ((n + 2 : ℕ) : ℚ) = (n : ℚ) + 2 := by push_cast; ring
      rw [if_neg (by omega : n + 2 + 1 ≠ 0), if_neg (by omega : n + 2 + 1 ≠ 1),
        if_neg (by omega : n + 2 ≠ 0), if_neg (by omega : n + 2 ≠ 1), hc2, hc1]
      linarith

/-- Witness for C8 at concrete boards with 0 and 2 owned quarries. -/
theorem quarry_score_diminishing_witness :
    scoreQuarryChoice wYouTwoQuarries 5 < scoreQuarryChoice wYou 2 :=
  quarry_score_diminishing.1 wYou wYouTwoQuarries rfl rfl

/-- C9: the Governor-swap session reset restores every documented
initial value — empty extras, quarries and buildings on both boards,
cleared preference memory, starting money 3/2 by Governor side, full
quarry pool of 5, and turn 1 of round 1. -/
theorem reset_restores_initial_values (g : Bool) (s : SessionState) :
    (syncDoubloonsToGovernor g s).extraPlantations = []
    ∧ (syncDoubloonsToGovernor g s).quarries = 0
    ∧ (syncDoubloonsToGovernor g s).buildings = []
    ∧ (syncDoubloonsToGovernor g s).oppExtraPlantations = []
    ∧ (syncDoubloonsToGovernor g s).oppQuarries = 0
    ∧ (syncDoubloonsToGovernor g s).oppBuildings = []
    ∧ (syncDoubloonsToGovernor g s).feedbackCounts = (fun _ => 0)
    ∧ (syncDoubloonsToGovernor g s).yourDoubloons = (if g then 3 else 2)
    ∧ (syncDoubloonsToGovernor g s).oppDoubloons = (if g then 2 else 3)
    ∧ (syncDoubloonsToGovernor g s).quarriesRemaining = 5
    ∧ (syncDoubloonsToGovernor g s).turnInRound = 1
    ∧ (syncDoubloonsToGovernor g s).roundNumber = 1 :=
  ⟨rfl, rfl, rfl, rfl, rfl, rfl, rfl, rfl, rfl, rfl, rfl, rfl⟩

/-- The starting-crop-match clause of `describePlantationReason`. -/
def matchClause : String :=
  "It matches your starting plantation, reinforcing that production line."

/-- The diversification clause of `describePlantationReason`. -/
def diversifyClause : String :=
  "It diversifies your plantations, giving you more flexibility later."

/-- The denial clause of `describePlantationReason`. -/
def denyClause : String :=
  "It also denies the opponent another copy of their main crop."

/-- The suffix of the default high-value-export lead clause. -/
def exportSuffix : String :=
  " is a high-value export that pays off once the right production building is online."

/-- A string shorter than a suffix cannot be an append ending in it. -/
theorem append_ne_of_length_lt (p s c : String) (h : c.length < s.length) :
    p ++ s ≠ c := by
  intro hEq
  have hl := congrArg String.length hEq
  rw [String.length_append] at hl
  omega

/-- None of the three tail clauses can occur among the lead clauses of
`describePlantationParts` for a non-Quarry plantation. -/
theorem clause_not_in_lead (p : String) (c : String) (hc : c.length < 83)
    (h1 : c ≠ "Corn is extremely strong early because it produces without a building and gives fast shipping pressure in 2-player.")
    (h2 : c ≠ "Indigo is weaker economically than corn; it mainly shines once you have the matching indigo production building.")
    (h3 : c ≠ "Sugar is a higher-value good that scores well once the Sugar Mill is in place, making it an appealing early pick.") :
    c ∉ (if p = "Corn" then
          ["Corn is extremely strong early because it produces without a building and gives fast shipping pressure in 2-player."]
        else if p = "Indigo" then
          ["Indigo is weaker economically than corn; it mainly shines once you have the matching indigo production building."]
        else if p = "Sugar" then
          ["Sugar is a higher-value good that scores well once the Sugar Mill is in place, making it an appealing early pick."]
        else
          [p ++ exportSuffix]) := by
  split_ifs
  · simp [h1]
  · simp [h2]
  · simp [h3]
  · intro hm
    rw [List.mem_singleton] at hm
    exact append_ne_of_length_lt p exportSuffix c
      (by rw [show exportSuffix.length = 83 from rfl]; exact hc) hm.symm

/-- C7 counterexample: with starting crop Indigo and a Corn extra
already on the board, claiming Corn earns no synergy bonus at all — in
particular no diversification bonus — yet the explanation still carries
the diversification clause, so the clause does not appear iff the bonus
applied. -/
theorem describe_diversify_clause_cex :
    diversifyClause ∈ describePlantationParts "Corn" cexYou wOpp
    ∧ plantationSynergyBonus "Corn" cexYou = 0 := by
  constructor
  · decide
  · simp [plantationSynergyBonus, cexYou]

/-- C7 (amended): for non-Quarry plantations the matches-your-starting
clause appears iff the starting-crop synergy bonus applied and the
denial clause iff the deny bonus applied, but the diversification clause
appears iff the plantation differs from the starting crop — not iff the
diversification bonus applied — and no clause corresponds to the
early-turn bonus (the explanation ignores the turn number). -/
theorem describe_clauses_match_bonuses (p : String) (you opponent : PlayerBoard)
    (hp : p ≠ "Quarry") :
    (matchClause ∈ describePlantationParts p you opponent
      ↔ p = you.startingPlantation)
    ∧ (diversifyClause ∈ describePlantationParts p you opponent
      ↔ p ≠ you.startingPlantation)
    ∧ (denyClause ∈ describePlantationParts p you opponent
      ↔ p = opponent.startingPlantation) := by
  have hM := clause_not_in_lead p matchClause (by decide) (by decide) (by decide)
    (by decide)
  have hD := clause_not_in_lead p diversifyClause (by decide) (by decide)
    (by decide) (by decide)
  have hDn := clause_not_in_lead p denyClause (by decide) (by decide) (by decide)
    (by decide)
  unfold describePlantationParts
  dsimp only
  rw [if_neg hp, if_pos hp]
  simp only [List.mem_append]
  refine ⟨⟨?_, ?_⟩, ⟨?_, ?_⟩, ⟨?_, ?_⟩⟩
  · rintro (h | h | h)
    · exact absurd h hM
    · by_cases hs : p = you.startingPlantation
      · exact hs
      · rw [if_neg hs, List.mem_singleton] at h
        exact absurd h (by decide)
    · by_cases hd : p = opponent.startingPlantation
      · rw [if_pos hd, List.mem_singleton] at h
        exact absurd h (by decide)
      · rw [if_neg hd] at h
        cases h
  · intro hs
    refine Or.inr (Or.inl ?_)
    rw [if_pos hs]
    exact List.mem_singleton.mpr rfl
  · rintro (h | h | h)
    · exact absurd h hD
    · by_cases hs : p = you.startingPlantation
      · rw [if_pos hs, List.mem_singleton] at h
        exact absurd h (by decide)
      · exact hs
    · by_cases hd : p = opponent.startingPlantation
      · rw [if_pos hd, List.mem_singleton] at h
        exact absurd h (by decide)
      · rw [if_neg hd] at h
        cases h
  · intro hs
    refine Or.inr (Or.inl ?_)
    rw [if_neg hs]
    exact List.mem_singleton.mpr rfl
  · rintro (h | h | h)
    · exact absurd h hDn
    · by_cases hs : p = you.startingPlantation
      · rw [if_pos hs, List.mem_singleton] at h
        exact absurd h (by decide)
      · rw [if_neg hs, List.mem_singleton] at h
        exact absurd h (by decide)
    · by_cases hd : p = opponent.startingPlantation
      · exact hd
      · rw [if_neg hd] at h
        cases h
  · intro hd
    refine Or.inr (Or.inr ?_)
    rw [if_pos hd]
    exact List.mem_singleton.mpr rfl

/-- Witness for the amended C7 at the concrete input "Corn" against
fresh boards (Corn matches the opponent's starting crop). -/
theorem describe_clauses_match_bonuses_witness :
    denyClause ∈ describePlantationParts "Corn" wYou wOpp :=
  ((describe_clauses_match_bonuses "Corn" wYou wOpp (by decide)).2.2).mpr rfl

/-! Projection facts about the state transitions. -/

/-- `applyChosenMove` always sets the turn counter to `min (t+1) 7`. -/
theorem applyChosenMove_turnInRound (role p b : String) (s : SessionState) :
    (applyChosenMove role p b s).turnInRound = min (s.turnInRound + 1) 7 := by
  unfold applyChosenMove
  dsimp only
  split_ifs <;> rfl

/-- `applyChosenMove` never touches the round number. -/
theorem applyChosenMove_roundNumber (role p b : String) (s : SessionState) :
    (applyChosenMove role p b s).roundNumber = s.roundNumber := by
  unfold applyChosenMove
  dsimp only
  split_ifs <;> rfl

/-- With a selected role, `applyOpponentLastRole` sets the turn counter
to `min (t+1) 7`. -/
theorem applyOpponentLastRole_turnInRound (role g b : String)
    (s : SessionState) (h : role ≠ "") :
    (applyOpponentLastRole role g b s).turnInRound = min (s.turnInRound + 1) 7 := by
  unfold applyOpponentLastRole
  rw [if_neg h]
  dsimp only
  split_ifs <;> rfl

/-- `applyOpponentLastRole` never touches the round number. -/
theorem applyOpponentLastRole_roundNumber (role g b : String)
    (s : SessionState) :
    (applyOpponentLastRole role g b s).roundNumber = s.roundNumber := by
  unfold applyOpponentLastRole
  dsimp only
  split_ifs <;> rfl

/-- With no role selected, `applyOpponentLastRole` is the identity. -/
theorem applyOpponentLastRole_empty (g b : String) (s : SessionState) :
    applyOpponentLastRole "" g b s = s := by
  unfold applyOpponentLastRole
  exact if_pos rfl

/-- The guarded pool decrement stays non-negative. -/
theorem decrementQuarriesRemaining_nonneg (q : Int) (h : 0 ≤ q) :
    0 ≤ decrementQuarriesRemaining q := by
  unfold decrementQuarriesRemaining
  split <;> omega

/-- The advised player's money stays non-negative across
`applyChosenMove`. -/
theorem applyChosenMove_yourDoubloons_nonneg (role p b : String)
    (s : SessionState) (h : 0 ≤ s.yourDoubloons) :
    0 ≤ (applyChosenMove role p b s).yourDoubloons := by
  unfold applyChosenMove
  dsimp only
  split_ifs <;> (try dsimp only) <;> omega

/-- `applyChosenMove` never touches the opponent's money. -/
theorem applyChosenMove_oppDoubloons (role p b : String) (s : SessionState) :
    (applyChosenMove role p b s).oppDoubloons = s.oppDoubloons := by
  unfold applyChosenMove
  dsimp only
  split_ifs <;> rfl

/-- The shared quarry pool stays non-negative across `applyChosenMove`. -/
theorem applyChosenMove_quarriesRemaining_nonneg (role p b : String)
    (s : SessionState) (h : 0 ≤ s.quarriesRemaining) :
    0 ≤ (applyChosenMove role p b s).quarriesRemaining := by
  unfold applyChosenMove
  dsimp only
  split_ifs <;>
    first
      | exact h
      | exact decrementQuarriesRemaining_nonneg _ h

/-- The opponent's money stays non-negative across
`applyOpponentLastRole`. -/
theorem applyOpponentLastRole_oppDoubloons_nonneg (role g b : String)
    (s : SessionState) (h : 0 ≤ s.oppDoubloons) :
    0 ≤ (applyOpponentLastRole role g b s).oppDoubloons := by
  unfold applyOpponentLastRole
  dsimp only
  split_ifs <;> (try dsimp only) <;> omega

/-- `applyOpponentLastRole` never touches the advised player's money. -/
theorem applyOpponentLastRole_yourDoubloons (role g b : String)
    (s : SessionState) :
    (applyOpponentLastRole role g b s).yourDoubloons = s.yourDoubloons := by
  unfold applyOpponentLastRole
  dsimp only
  split_ifs <;> rfl

/-- The shared quarry pool stays non-negative across
`applyOpponentLastRole`. -/
theorem applyOpponentLastRole_quarriesRemaining_nonneg (role g b : String)
    (s : SessionState) (h : 0 ≤ s.quarriesRemaining) :
    0 ≤ (applyOpponentLastRole role g b s).quarriesRemaining := by
  unfold applyOpponentLastRole
  dsimp only
  split_ifs <;>
    first
      | exact h
      | exact decrementQuarriesRemaining_nonneg _ h

/-- C3: every applied action — the advised player's move always, the
opponent's whenever a role is actually selected — sets the shared turn
counter to `min (t+1) 7` (an increase of exactly 1, clamped at the
terminal sentinel 7) and leaves the round number untouched; hence after
any sequence of applied actions the counter is non-decreasing, stays in
1..7, and the round number never auto-advances. -/
theorem turn_counter_monotone :
    (∀ (role p b : String) (s : SessionState),
      (applyChosenMove role p b s).turnInRound = min (s.turnInRound + 1) 7
      ∧ (applyChosenMove role p b s).roundNumber = s.roundNumber)
    ∧ (∀ (role g b : String) (s : SessionState), role ≠ "" →
      (applyOpponentLastRole role g b s).turnInRound = min (s.turnInRound + 1) 7
      ∧ (applyOpponentLastRole role g b s).roundNumber = s.roundNumber)
    ∧ (∀ (acts : List Action) (s : SessionState),
      1 ≤ s.turnInRound → s.turnInRound ≤ 7 →
      1 ≤ (applyActions acts s).turnInRound
      ∧ (applyActions acts s).turnInRound ≤ 7
      ∧ s.turnInRound ≤ (applyActions acts s).turnInRound
      ∧ (applyActions acts s).roundNumber = s.roundNumber) := by
  refine ⟨?_, ?_, ?_⟩
  · intro role p b s
    exact ⟨applyChosenMove_turnInRound role p b s,
      applyChosenMove_roundNumber role p b s⟩
  · intro role g b s h
    exact ⟨applyOpponentLastRole_turnInRound role g b s h,
      applyOpponentLastRole_roundNumber role g b s⟩
  · intro acts
    induction acts with
    | nil => exact fun s h1 h7 => ⟨h1, h7, le_refl _, rfl⟩
    | cons a t ih =>
        intro s h1 h7
        have hstep : 1 ≤ (applyAction a s).turnInRound
            ∧ (applyAction a s).turnInRound ≤ 7
            ∧ s.turnInRound ≤ (applyAction a s).turnInRound
            ∧ (applyAction a s).roundNumber = s.roundNumber := by
          cases a with
          | chosen r p b =>
              have ht := applyChosenMove_turnInRound r p b s
              have hr := applyChosenMove_roundNumber r p b s
              exact ⟨by rw [show (applyAction (.chosen r p b) s) =
                  applyChosenMove r p b s from rfl, ht]; omega,
                by rw [show (applyAction (.chosen r p b) s) =
                  applyChosenMove r p b s from rfl, ht]; omega,
                by rw [show (applyAction (.chosen r p b) s) =
                  applyChosenMove r p b s from rfl, ht]; omega,
                hr⟩
          | opponent r g b =>
              by_cases hr : r = ""
              · subst hr
                rw [show (applyAction (.opponent "" g b) s) =
                  applyOpponentLastRole "" g b s from rfl,
                  applyOpponentLastRole_empty]
                exact ⟨h1, h7, le_refl _, rfl⟩
              · have ht := applyOpponentLastRole_turnInRound r g b s hr
                have hrn := applyOpponentLastRole_roundNumber r g b s
                exact ⟨by rw [show (applyAction (.opponent r g b) s) =
                    applyOpponentLastRole r g b s from rfl, ht]; omega,
                  by rw [show (applyAction (.opponent r g b) s) =
                    applyOpponentLastRole r g b s from rfl, ht]; omega,
                  by rw [show (applyAction (.opponent r g b) s) =
                    applyOpponentLastRole r g b s from rfl, ht]; omega,
                  hrn⟩
        obtain ⟨k1, k7, kle, kr⟩ := hstep
        have hrec := ih (applyAction a s) k1 k7
        have hfold : applyActions (a :: t) s = applyActions t (applyAction a s) := rfl
        rw [hfold]
        exact ⟨hrec.1, hrec.2.1, le_trans kle hrec.2.2.1, hrec.2.2.2.trans kr⟩

/-- Witness for C3: two applied actions starting at turn 1 keep the
counter within 1..7. -/
theorem turn_counter_monotone_witness :
    1 ≤ (applyActions [Action.chosen "Prospector" "" "",
        Action.opponent "Prospector" "" ""] baseSession).turnInRound
    ∧ (applyActions [Action.chosen "Prospector" "" "",
        Action.opponent "Prospector" "" ""] baseSession).turnInRound ≤ 7 := by
  have h := turn_counter_monotone.2.2
    [Action.chosen "Prospector" "" "", Action.opponent "Prospector" "" ""]
    baseSession (by decide) (by decide)
  exact ⟨h.1, h.2.1⟩

/-- C4 counterexample: applying the Builder role with no building chosen
is not a no-op — the turn counter still advances from 1 to 2. -/
theorem missing_field_not_noop_cex :
    (applyChosenMove "Builder" "" "" baseSession).turnInRound
      ≠ baseSession.turnInRound := by decide

/-- C4 (amended): applying a move with a missing required field (Builder
with no building, or Settler with no plantation) leaves both boards, the
money values, the preference memory, the face-up row and the shared pool
unchanged, but still removes the chosen role from the available set and
advances the turn counter by one, clamped at 7. -/
theorem missing_field_partial_noop (s : SessionState) :
    ((applyChosenMove "Builder" "" "" s).extraPlantations = s.extraPlantations
      ∧ (applyChosenMove "Builder" "" "" s).quarries = s.quarries
      ∧ (applyChosenMove "Builder" "" "" s).buildings = s.buildings
      ∧ (applyChosenMove "Builder" "" "" s).oppExtraPlantations = s.oppExtraPlantations
      ∧ (applyChosenMove "Builder" "" "" s).oppQuarries = s.oppQuarries
      ∧ (applyChosenMove "Builder" "" "" s).oppBuildings = s.oppBuildings
      ∧ (applyChosenMove "Builder" "" "" s).feedbackCounts = s.feedbackCounts
      ∧ (applyChosenMove "Builder" "" "" s).yourDoubloons = s.yourDoubloons
      ∧ (applyChosenMove "Builder" "" "" s).oppDoubloons = s.oppDoubloons
      ∧ (applyChosenMove "Builder" "" "" s).faceUpPlantations = s.faceUpPlantations
      ∧ (applyChosenMove "Builder" "" "" s).quarriesRemaining = s.quarriesRemaining
      ∧ (applyChosenMove "Builder" "" "" s).availableRoles
          = s.availableRoles.erase "Builder"
      ∧ (applyChosenMove "Builder" "" "" s).turnInRound
          = min (s.turnInRound + 1) 7)
    ∧ ((applyChosenMove "Settler" "" "" s).extraPlantations = s.extraPlantations
      ∧ (applyChosenMove "Settler" "" "" s).quarries = s.quarries
      ∧ (applyChosenMove "Settler" "" "" s).buildings = s.buildings
      ∧ (applyChosenMove "Settler" "" "" s).yourDoubloons = s.yourDoubloons
      ∧ (applyChosenMove "Settler" "" "" s).faceUpPlantations = s.faceUpPlantations
      ∧ (applyChosenMove "Settler" "" "" s).quarriesRemaining = s.quarriesRemaining
      ∧ (applyChosenMove "Settler" "" "" s).availableRoles
          = s.availableRoles.erase "Settler"
      ∧ (applyChosenMove "Settler" "" "" s).turnInRound
          = min (s.turnInRound + 1) 7) := by
  constructor
  · unfold applyChosenMove
    simp
  · unfold applyChosenMove
    simp

/-- C5 counterexample: buying an already-owned Small Market leaves the
owned list without a duplicate, but the player's money IS deducted
(5 → 4), contradicting the claim that no deduction happens when the
building is already owned. -/
theorem owned_purchase_deducts_cex :
    (applyChosenMove "Builder" "" "Small Market" ownedMarketSession).buildings
        = ownedMarketSession.buildings
    ∧ (applyChosenMove "Builder" "" "Small Market" ownedMarketSession).yourDoubloons
        ≠ ownedMarketSession.yourDoubloons := by decide

/-- C5 (amended): purchasing a building the acting player already owns
adds no duplicate to the owned set, but the catalog cost is still
deducted from that player's money (clamped at 0) exactly as for a new
purchase; the same holds on the opponent's board. -/
theorem owned_purchase_no_duplicate :
    (∀ (s : SessionState) (b : String), b ≠ "" → b ∈ s.buildings →
      (applyChosenMove "Builder" "" b s).buildings = s.buildings
      ∧ (applyChosenMove "Builder" "" b s).yourDoubloons =
          (if 0 < BUILDING_COSTS b then max 0 (s.yourDoubloons - BUILDING_COSTS b)
           else s.yourDoubloons))
    ∧ (∀ (s : SessionState) (g b : String), b ≠ "" → b ∈ s.oppBuildings →
      (applyOpponentLastRole "Builder" g b s).oppBuildings = s.oppBuildings
      ∧ (applyOpponentLastRole "Builder" g b s).oppDoubloons =
          (if 0 < BUILDING_COSTS b then max 0 (s.oppDoubloons - BUILDING_COSTS b)
           else s.oppDoubloons)) := by
  constructor
  · intro s b hb hOwned
    unfold applyChosenMove
    simp [hb, hOwned]
  · intro s g b hb hOwned
    unfold applyOpponentLastRole
    simp [hb, hOwned]

/-- Witness for the amended C5 on a concrete session owning the Small
Market with 5 doubloons. -/
theorem owned_purchase_no_duplicate_witness :
    (applyChosenMove "Builder" "" "Small Market" ownedMarketSession).buildings
      = ownedMarketSession.buildings :=
  (owned_purchase_no_duplicate.1 ownedMarketSession "Small Market"
    (by decide) (by decide)).1

/-- C6: every single applied action and every sequence of applied
actions preserves non-negativity of both players' money and of the
shared quarry pool (all decrements clamp at zero), and in particular any
number of consecutive Quarry claims — even more than the pool size —
never drives the remaining-quarries count negative. -/
theorem money_and_pool_nonneg :
    (∀ (a : Action) (s : SessionState),
      0 ≤ s.yourDoubloons → 0 ≤ s.oppDoubloons → 0 ≤ s.quarriesRemaining →
      0 ≤ (applyAction a s).yourDoubloons
      ∧ 0 ≤ (applyAction a s).oppDoubloons
      ∧ 0 ≤ (applyAction a s).quarriesRemaining)
    ∧ (∀ (acts : List Action) (s : SessionState),
      0 ≤ s.yourDoubloons → 0 ≤ s.oppDoubloons → 0 ≤ s.quarriesRemaining →
      0 ≤ (applyActions acts s).yourDoubloons
      ∧ 0 ≤ (applyActions acts s).oppDoubloons
      ∧ 0 ≤ (applyActions acts s).quarriesRemaining)
    ∧ (∀ (n : Nat) (s : SessionState), 0 ≤ s.quarriesRemaining →
      0 ≤ (applyActions
            (List.replicate n (Action.chosen "Settler" "Quarry" "")) s).quarriesRemaining) := by
  have hStep : ∀ (a : Action) (s : SessionState),
      0 ≤ s.yourDoubloons → 0 ≤ s.oppDoubloons → 0 ≤ s.quarriesRemaining →
      0 ≤ (applyAction a s).yourDoubloons
      ∧ 0 ≤ (applyAction a s).oppDoubloons
      ∧ 0 ≤ (applyAction a s).quarriesRemaining := by
    intro a s hy ho hq
    cases a with
    | chosen r p b =>
        refine ⟨applyChosenMove_yourDoubloons_nonneg r p b s hy, ?_,
          applyChosenMove_quarriesRemaining_nonneg r p b s hq⟩
        rw [show (applyAction (.chosen r p b) s) = applyChosenMove r p b s from rfl,
          applyChosenMove_oppDoubloons]
        exact ho
    | opponent r g b =>
        refine ⟨?_, applyOpponentLastRole_oppDoubloons_nonneg r g b s ho,
          applyOpponentLastRole_quarriesRemaining_nonneg r g b s hq⟩
        rw [show (applyAction (.opponent r g b) s) = applyOpponentLastRole r g b s from rfl,
          applyOpponentLastRole_yourDoubloons]
        exact hy
  have hSeq : ∀ (acts : List Action) (s : SessionState),
      0 ≤ s.yourDoubloons → 0 ≤ s.oppDoubloons → 0 ≤ s.quarriesRemaining →
      0 ≤ (applyActions acts s).yourDoubloons
      ∧ 0 ≤ (applyActions acts s).oppDoubloons
      ∧ 0 ≤ (applyActions acts s).quarriesRemaining := by
    intro acts
    induction acts with
    | nil => exact fun s hy ho hq => ⟨hy, ho, hq⟩
    | cons a t ih =>
        intro s hy ho hq
        obtain ⟨ky, ko, kq⟩ := hStep a s hy ho hq
        exact ih (applyAction a s) ky ko kq
  refine ⟨hStep, hSeq, ?_⟩
  intro n s hq
  induction n generalizing s with
  | zero => exact hq
  | succ m ih =>
      rw [List.replicate_succ]
      have hstep := applyChosenMove_quarriesRemaining_nonneg "Settler" "Quarry" "" s hq
      exact ih (applyAction (.chosen "Settler" "Quarry" "") s) hstep

/-- Witness for C6: six consecutive Quarry claims on a pool of five keep
the pool non-negative. -/
theorem money_and_pool_nonneg_witness :
    0 ≤ (applyActions
          (List.replicate 6 (Action.chosen "Settler" "Quarry" ""))
          baseSession).quarriesRemaining :=
  money_and_pool_nonneg.2.2 6 baseSession (by decide)

/-! Shape of the aggregator's candidate blocks. -/

/-- Any candidate in the Settler block requires the Settler role to be
available, carries role "Settler", no building, and a non-"None"
plantation scored by `scorePlantationChoice` plus its feedback bonus. -/
theorem mem_settlerRecs {you opponent : PlayerBoard} {rs : RoundState}
    {t : Int} {fb : String → Nat} {rec : Recommendation}
    (h : rec ∈ settlerRecs you opponent rs t fb) :
    "Settler" ∈ rs.availableRoles ∧ rec.role = "Settler" ∧ rec.building = none
    ∧ ∃ p, rec.plantation = some p ∧ p ≠ "None"
        ∧ rec.score = scorePlantationChoice p you opponent t
            + feedbackBonus fb "Settler" p "" := by
  unfold settlerRecs at h
  by_cases hS : "Settler" ∈ rs.availableRoles
  · rw [if_pos hS] at h
    rcases List.mem_append.mp h with h | h
    · obtain ⟨p, hp, hEq⟩ := List.mem_filterMap.mp h
      by_cases hN : p = "None"
      · rw [if_pos hN] at hEq
        exact Option.noConfusion hEq
      · rw [if_neg hN] at hEq
        injection hEq with hEq
        subst hEq
        exact ⟨hS, rfl, rfl, p, rfl, hN, rfl⟩
    · by_cases hQ : rs.quarriesRemaining > 0
      · rw [if_pos hQ, List.mem_singleton] at h
        subst h
        exact ⟨hS, rfl, rfl, "Quarry", rfl, by decide, rfl⟩
      · rw [if_neg hQ] at h
        cases h
  · rw [if_neg hS] at h
    cases h

/-- Any candidate in the Prospector block requires the Prospector role
to be available and carries neither plantation nor building. -/
theorem mem_prospectorRecs {you : PlayerBoard} {rs : RoundState} {t : Int}
    {fb : String → Nat} {rec : Recommendation}
    (h : rec ∈ prospectorRecs you rs t fb) :
    "Prospector" ∈ rs.availableRoles ∧ rec.role = "Prospector"
    ∧ rec.plantation = none ∧ rec.building = none := by
  unfold prospectorRecs at h
  by_cases hP : "Prospector" ∈ rs.availableRoles
  · rw [if_pos hP, List.mem_singleton] at h
    subst h
    exact ⟨hP, rfl, rfl, rfl⟩
  · rw [if_neg hP] at h
    cases h

/-- An already-owned building scores the −999 sentinel. -/
theorem scoreBuildingChoice_owned {b : Building} {you : PlayerBoard} {t : Int}
    (h : b.name ∈ you.buildings) : scoreBuildingChoice b you t = -999 := by
  unfold scoreBuildingChoice
  have hcond : hasBuilding you.buildings b.name = true := List.elem_iff.mpr h
  rw [if_pos hcond]

/-- Every builder option comes from the catalog, is affordable, carries
its `scoreBuildingChoice` score, and survived the −500 sentinel filter. -/
theorem mem_getBuilderOptions {you : PlayerBoard} {t : Int}
    {opt : Building × ℚ} (h : opt ∈ getBuilderOptions you t) :
    opt.1 ∈ BUILDINGS ∧ opt.1.cost ≤ you.doubloons
    ∧ opt.2 = scoreBuildingChoice opt.1 you t ∧ (-500 : ℚ) < opt.2 := by
  unfold getBuilderOptions at h
  rw [mem_sortByKeyDesc] at h
  obtain ⟨hmem, hpred⟩ := List.mem_filter.mp h
  obtain ⟨b, hbmem, hfb⟩ := List.mem_map.mp hmem
  obtain ⟨hB, hcost⟩ := List.mem_filter.mp hbmem
  subst hfb
  exact ⟨hB, of_decide_eq_true hcost, rfl, of_decide_eq_true hpred⟩

/-- Any candidate in the Builder block requires the Builder role to be
available, carries role "Builder" and no plantation, and any building it
names is an affordable catalog building not yet owned. -/
theorem mem_builderRecs {you : PlayerBoard} {rs : RoundState} {t : Int}
    {fb : String → Nat} {rec : Recommendation}
    (h : rec ∈ builderRecs you rs t fb) :
    "Builder" ∈ rs.availableRoles ∧ rec.role = "Builder" ∧ rec.plantation = none
    ∧ (∀ bname, rec.building = some bname →
        bname ∉ you.buildings
        ∧ ∃ b, b ∈ BUILDINGS ∧ b.name = bname ∧ b.cost ≤ you.doubloons) := by
  unfold builderRecs at h
  by_cases hB : "Builder" ∈ rs.availableRoles
  · rw [if_pos hB] at h
    dsimp only at h
    by_cases hE : (getBuilderOptions you t).isEmpty
    · rw [if_pos hE, List.mem_singleton] at h
      subst h
      exact ⟨hB, rfl, rfl, fun bname hbn => Option.noConfusion hbn⟩
    · rw [if_neg hE] at h
      obtain ⟨opt, hopt, hfo⟩ := List.mem_map.mp h
      subst hfo
      obtain ⟨hBmem, hcost, hscore, hgt⟩ := mem_getBuilderOptions hopt
      refine ⟨hB, rfl, rfl, ?_⟩
      intro bname hbn
      injection hbn with hbn
      subst hbn
      constructor
      · intro hOwn
        rw [hscore, scoreBuildingChoice_owned hOwn] at hgt
        norm_num at hgt
      · exact ⟨opt.1, hBmem, rfl, hcost⟩
  · rw [if_neg hB] at h
    cases h

/-- Any candidate in the remaining-roles block carries an available role
other than Settler/Prospector/Builder and no plantation or building. -/
theorem mem_otherRecs {you : PlayerBoard} {rs : RoundState}
    {fb : String → Nat} {rec : Recommendation}
    (h : rec ∈ otherRecs you rs fb) :
    rec.role ∈ rs.availableRoles ∧ rec.plantation = none ∧ rec.building = none
    ∧ rec.role ≠ "Settler" := by
  unfold otherRecs at h
  obtain ⟨role, hrole, hEq⟩ := List.mem_filterMap.mp h
  by_cases hg : role = "Settler" ∨ role = "Prospector" ∨ role = "Builder"
  · rw [if_pos hg] at hEq
    exact Option.noConfusion hEq
  · rw [if_neg hg] at hEq
    injection hEq with hEq
    subst hEq
    exact ⟨hrole, rfl, rfl, fun hc => hg (Or.inl hc)⟩

/-- C2: every candidate returned by `recommendMoves` names an available
role, no Settler candidate claims the empty "None" slot, and any
building named is an affordable catalog building the acting player does
not already own. -/
theorem recommendMoves_candidates_legal
    (you opponent : PlayerBoard) (rs : RoundState) (t : Int)
    (fb : String → Nat) (rec : Recommendation)
    (h : rec ∈ recommendMoves you opponent rs t fb) :
    rec.role ∈ rs.availableRoles
    ∧ (rec.role = "Settler" → rec.plantation ≠ some "None")
    ∧ (∀ bname, rec.building = some bname →
        bname ∉ you.buildings
        ∧ ∃ b, b ∈ BUILDINGS ∧ b.name = bname ∧ b.cost ≤ you.doubloons) := by
  unfold recommendMoves at h
  rw [mem_sortByKeyDesc] at h
  simp only [List.mem_append] at h
  rcases h with ((h | h) | h) | h
  · obtain ⟨hS, hrole, hbuild, p, hplant, hpN, _⟩ := mem_settlerRecs h
    refine ⟨hrole ▸ hS, fun _ => ?_, fun bname hbn => ?_⟩
    · rw [hplant]
      intro hc
      injection hc with hc
      exact hpN hc
    · rw [hbuild] at hbn
      exact Option.noConfusion hbn
  · obtain ⟨hP, hrole, hplant, hbuild⟩ := mem_prospectorRecs h
    refine ⟨hrole ▸ hP, fun _ => ?_, fun bname hbn => ?_⟩
    · rw [hplant]
      exact fun hc => Option.noConfusion hc
    · rw [hbuild] at hbn
      exact Option.noConfusion hbn
  · obtain ⟨hB, hrole, hplant, hspec⟩ := mem_builderRecs h
    refine ⟨hrole ▸ hB, fun _ => ?_, hspec⟩
    rw [hplant]
    exact fun hc => Option.noConfusion hc
  · obtain ⟨hrole, hplant, hbuild, _⟩ := mem_otherRecs h
    refine ⟨hrole, fun _ => ?_, fun bname hbn => ?_⟩
    · rw [hplant]
      exact fun hc => Option.noConfusion hc
    · rw [hbuild] at hbn
      exact Option.noConfusion hbn

/-- Witness for C2 on a round offering only the Trader role. -/
theorem recommendMoves_candidates_legal_witness :
    wTraderRec.role ∈ wTraderRound.availableRoles := by
  have hmem : wTraderRec ∈ recommendMoves wYou wOpp wTraderRound 3 (fun _ => 0) := by
    unfold recommendMoves
    rw [mem_sortByKeyDesc]
    simp [settlerRecs, prospectorRecs, builderRecs, otherRecs, wTraderRound,
      wTraderRec, scoreOtherRole, explainOtherRole, feedbackBonus, moveKey, wYou]
  exact (recommendMoves_candidates_legal wYou wOpp wTraderRound 3 (fun _ => 0)
    wTraderRec hmem).1

/-- C10: when the Settler role is available, a face-up slot holds
"Quarry" and the shared pool is non-empty, `recommendMoves` emits at
least two Settler-claim-Quarry candidates (one from the face-up loop,
one from the dedicated quarry branch), and every such candidate carries
the `scoreQuarryChoice` score plus the feedback bonus of the same
"Settler|Quarry|" preference key. -/
theorem settler_quarry_duplicated
    (you opponent : PlayerBoard) (rs : RoundState) (t : Int)
    (fb : String → Nat)
    (hS : "Settler" ∈ rs.availableRoles)
    (hFace : "Quarry" ∈ rs.faceUpPlantations)
    (hQ : rs.quarriesRemaining > 0) :
    2 ≤ (recommendMoves you opponent rs t fb).countP
        (fun rec => rec.role == "Settler" && rec.plantation == some "Quarry")
    ∧ (∀ rec ∈ recommendMoves you opponent rs t fb,
        rec.role = "Settler" → rec.plantation = some "Quarry" →
        rec.score = scoreQuarryChoice you t
          + feedbackBonus fb "Settler" "Quarry" "") := by
  have hQS : scorePlantationChoice "Quarry" you opponent t
      = scoreQuarryChoice you t := by
    unfold scorePlantationChoice
    rw [if_pos rfl]
  constructor
  · unfold recommendMoves
    rw [countP_sortByKeyDesc]
    simp only [List.countP_append]
    have hA : 2 ≤ (settlerRecs you opponent rs t fb).countP
        (fun rec => rec.role == "Settler" && rec.plantation == some "Quarry") := by
      unfold settlerRecs
      rw [if_pos hS, List.countP_append, if_pos hQ]
      show 1 + 1 ≤ _ + _
      refine Nat.add_le_add ?_ ?_
      · refine List.countP_pos_iff.mpr ?_
        exact ⟨_, List.mem_filterMap.mpr ⟨"Quarry", hFace, rfl⟩, rfl⟩
      · simp
    omega
  · intro rec hmem hrole hplant
    unfold recommendMoves at hmem
    rw [mem_sortByKeyDesc] at hmem
    simp only [List.mem_append] at hmem
    rcases hmem with ((h | h) | h) | h
    · obtain ⟨_, _, _, p, hp, _, hscore⟩ := mem_settlerRecs h
      rw [hp] at hplant
      injection hplant with hpe
      subst hpe
      rw [hscore, hQS]
    · obtain ⟨_, hrole2, _, _⟩ := mem_prospectorRecs h
      exact absurd (hrole2.symm.trans hrole) (by decide)
    · obtain ⟨_, hrole2, _, _⟩ := mem_builderRecs h
      exact absurd (hrole2.symm.trans hrole) (by decide)
    · obtain ⟨_, _, _, hneq⟩ := mem_otherRecs h
      exact absurd hrole hneq

/-- Witness for C10 on a concrete round with a face-up Quarry slot and a
pool of one. -/
theorem settler_quarry_duplicated_witness :
    2 ≤ (recommendMoves wYou wOpp wQuarryRound 1 (fun _ => 0)).countP
        (fun rec => rec.role == "Settler" && rec.plantation == some "Quarry") :=
  (settler_quarry_duplicated wYou wOpp wQuarryRound 1 (fun _ => 0)
    (by decide) (by decide) (by decide)).1

end PRHelper
